import Mathlib

/-!
Verification of the signup form core of `src/Frontend/src/pages/SignupPage.tsx`:
the Zod validation schema, the submit handler (payload normalization, success
and failure branches, the `finally` cleanup), the error-message fallback chain,
and the submit-button single-flight guard, embedded shallowly in Lean.
-/

namespace SignupPage

/-- The raw form fields, `SignupForm` in the source: `{ name, email, password }`. -/
structure SignupInput where
  name : String
  email : String
  password : String
deriving Repr, DecidableEq

/-- JavaScript `String.prototype.trim` on the character list: drop whitespace
from both ends. -/
def trimChars (l : List Char) : List Char :=
  ((l.dropWhile Char.isWhitespace).reverse.dropWhile Char.isWhitespace).reverse

/-- JavaScript `s.trim()`. -/
def jsTrim (s : String) : String :=
  String.mk (trimChars s.data)

/-- JavaScript `s.length` (UTF-16 code units; identical to the character count
on the ASCII inputs considered here). -/
def jsLength (s : String) : Nat :=
  s.data.length

/-- Split a character list at every occurrence of the separator `c`. -/
def splitOnChar (c : Char) : List Char → List (List Char)
  | [] => [[]]
  | x :: xs =>
      let r := splitOnChar c xs
      if x = c then [] :: r
      else
        match r with
        | [] => [[x]]
        | h :: t => (x :: h) :: t

/-- Modelled from the spec: the email grammar enforced by the schema library's
`.email()` check (library code, not under `src/`). The spec requires a
"standard email address grammar (local-part@domain)": a single `@` separating
a non-empty local part from a non-empty domain. -/
def isEmail (s : String) : Bool :=
  match splitOnChar '@' s.data with
  | [l, d] => !l.isEmpty && !d.isEmpty
  | _ => false

/-- Per-field error mapping produced by validation; `none` means the field is
valid (absent from the error mapping). -/
structure FieldErrors where
  name : Option String
  email : Option String
  password : Option String
deriving Repr, DecidableEq

/-- `SignupSchema` (SignupPage.tsx lines 32-36): name length ≥ 2, email
grammar, password length ≥ 6, each with its fixed violation message. -/
def validate (i : SignupInput) : FieldErrors where
  name := if 2 ≤ jsLength i.name then none else some "Name must be at least 2 characters"
  email := if isEmail i.email then none else some "Enter a valid email address"
  password := if 6 ≤ jsLength i.password then none else some "Password must be at least 6 characters"

/-- A `FieldErrors` value with no message on any field: validation succeeded. -/
def FieldErrors.isValid (e : FieldErrors) : Bool :=
  e.name.isNone && e.email.isNone && e.password.isNone

/-- JavaScript `s.toLowerCase()`: character-by-character lowercasing (exact on
the ASCII range). -/
def lowerString (s : String) : String :=
  String.mk (s.data.map Char.toLower)

/-- The JSON body posted to `/auth/signup`. -/
structure Payload where
  name : String
  email : String
  password : String
deriving Repr, DecidableEq

/-- The payload construction in `onSubmit` (lines 61-65): trim the name, trim
and lowercase the email, pass the password through unchanged. -/
def mkPayload (d : SignupInput) : Payload where
  name := jsTrim d.name
  email := lowerString (jsTrim d.email)
  password := d.password

/-- The optional `{ message?, error? }` body of a failed response
(`ApiError.response.data` in the source). -/
structure ErrData where
  message : Option String
  error : Option String
deriving Repr, DecidableEq

/-- The optional `response` carried by an API error (`ApiError.response`). -/
structure ErrResponse where
  data : Option ErrData
deriving Repr, DecidableEq

/-- The caught error `err`: an optional axios-style `response` and the plain
`Error.message` (`none` models an absent/undefined message). -/
structure ApiError where
  response : Option ErrResponse
  message : Option String
deriving Repr, DecidableEq

/-- JavaScript `a || b` specialised to an optional string on the left: the
right operand is chosen when the left is `undefined` (`none`) or the empty
string, both falsy in JavaScript. -/
def jsOr : Option String → String → String
  | some s, b => if s = "" then b else s
  | none, b => b

/-- `err?.response?.data?.message`: optional chaining through the three
levels. -/
def ApiError.dataMessage (e : ApiError) : Option String :=
  (e.response.bind ErrResponse.data).bind ErrData.message

/-- `err?.response?.data?.error`: optional chaining through the three
levels. -/
def ApiError.dataError (e : ApiError) : Option String :=
  (e.response.bind ErrResponse.data).bind ErrData.error

/-- The `errorMessage` fallback chain (lines 84-88):
`data?.message || data?.error || err?.message || "Signup failed."`. -/
def errorMessage (e : ApiError) : String :=
  jsOr e.dataMessage (jsOr e.dataError (jsOr e.message "Signup failed."))

/-- First non-empty present candidate, else the default: the spec's reading of
the fallback chain as an ordered list of extraction strategies returning the
first non-empty result. -/
def firstNonEmpty : List (Option String) → String → String
  | [], d => d
  | none :: rest, d => firstNonEmpty rest d
  | some s :: rest, d => if s = "" then firstNonEmpty rest d else s

/-- Outcome of the awaited `api.post` call: it resolves, or it rejects with a
caught error. -/
inductive NetOutcome where
  | success
  | failure (err : ApiError)
deriving Repr, DecidableEq

/-- Observable effects of the submit handler, in program order. -/
inductive Effect where
  | setBusy (b : Bool)
  | netCall (p : Payload)
  | toastSuccess (msg : String)
  | toastError (msg : String)
  | scheduleNav (route : String) (delayMs : Nat)
deriving Repr, DecidableEq

/-- The `try` body together with its `catch` handler (lines 60-93): the network
call is issued; on resolution a success toast is shown and the navigation to
`/dashboard` is scheduled 900ms out; on rejection the classified error toast is
shown. -/
def tryCatchEffects (d : SignupInput) (o : NetOutcome) : List Effect :=
  match o with
  | .success =>
      [Effect.netCall (mkPayload d),
       Effect.toastSuccess "Signup successful! Redirecting to dashboard...",
       Effect.scheduleNav "/dashboard" 900]
  | .failure e =>
      [Effect.netCall (mkPayload d), Effect.toastError (errorMessage e)]

/-- `onSubmit` (lines 58-97): `setLoading(true)`, then the try/catch body for
the given outcome, then the `finally` clause `setLoading(false)`, appended
unconditionally after either branch. -/
def onSubmit (d : SignupInput) (o : NetOutcome) : List Effect :=
  Effect.setBusy true :: (tryCatchEffects d o ++ [Effect.setBusy false])

/-- The busy flag left behind by a list of effects, starting from `b`. -/
def finalBusy : List Effect → Bool → Bool
  | [], b => b
  | Effect.setBusy b' :: rest, _ => finalBusy rest b'
  | _ :: rest, b => finalBusy rest b

/-- Component-level state of one mount: whether the component is still
mounted, the `loading` flag, the number of outstanding signup requests
(a ghost counter for the single-flight property), and whether a delayed
navigation timer is pending. -/
structure CompState where
  mounted : Bool
  busy : Bool
  outstanding : Nat
  navPending : Bool
deriving Repr, DecidableEq

/-- Discrete events driving the component: a click on the submit button with
the current field values, completion of the awaited network call, the 900ms
timer firing, and component teardown. -/
inductive Event where
  | submitClick (i : SignupInput)
  | netComplete (o : NetOutcome)
  | timerFire
  | unmount
deriving Repr, DecidableEq

/-- Externally visible actions a step can perform. `stateWrite` is a write to
the component's own React state (`setLoading`). -/
inductive Action where
  | request (p : Payload)
  | stateWrite (busy : Bool)
  | navigate (route : String)
  | notice (ok : Bool) (msg : String)
deriving Repr, DecidableEq

/-- Freshly mounted component: not busy, no outstanding request, no timer. -/
def initState : CompState :=
  { mounted := true, busy := false, outstanding := 0, navPending := false }

/-- One event step of the component, mirroring the source:
* `submitClick`: an unmounted form receives no clicks; the submit button is
  `disabled={loading}` so a busy component ignores the click; `handleSubmit`
  (modelled from the spec: the form library invokes `onSubmit` only when the
  schema validation passes, library code not under `src/`) drops invalid
  input without any submission side effect; otherwise `setLoading(true)` runs
  and the request is issued.
* `netComplete`: the continuation after `await api.post` — a success toast
  plus scheduling of the navigation timer, or an error toast, then the
  `finally` clause `setLoading(false)`. The source has no mounted-guard here:
  the continuation runs even after teardown.
* `timerFire`: `setTimeout(() => navigate("/dashboard"), 900)` — again with
  no mounted-guard in the source.
* `unmount`: teardown of the component. -/
def step (s : CompState) : Event → CompState × List Action
  | .submitClick i =>
      if s.mounted = false then (s, [])
      else if s.busy then (s, [])
      else if (validate i).isValid = false then (s, [])
      else ({ s with busy := true, outstanding := s.outstanding + 1 },
            [Action.stateWrite true, Action.request (mkPayload i)])
  | .netComplete o =>
      if s.outstanding = 0 then (s, [])
      else
        match o with
        | .success =>
            ({ s with busy := false, outstanding := s.outstanding - 1, navPending := true },
             [Action.notice true "Signup successful! Redirecting to dashboard...",
              Action.stateWrite false])
        | .failure e =>
            ({ s with busy := false, outstanding := s.outstanding - 1 },
             [Action.notice false (errorMessage e), Action.stateWrite false])
  | .timerFire =>
      if s.navPending then ({ s with navPending := false }, [Action.navigate "/dashboard"])
      else (s, [])
  | .unmount => ({ s with mounted := false }, [])

/-- Run a list of events from a state, keeping only the final state. -/
def runState (s : CompState) : List Event → CompState
  | [] => s
  | e :: rest => runState (step s e).1 rest

/-- Run a list of events, logging each emitted action tagged with whether the
component was still mounted when the action was performed. -/
def runLog (s : CompState) : List Event → List (Bool × Action)
  | [] => []
  | e :: rest =>
      ((step s e).2.map (fun a => (s.mounted, a))) ++ runLog (step s e).1 rest

/-- Recognize a success-toast effect. -/
def isSuccessToast : Effect → Bool
  | Effect.toastSuccess _ => true
  | _ => false

/-- Recognize a scheduled-navigation effect. -/
def isNavSchedule : Effect → Bool
  | Effect.scheduleNav _ _ => true
  | _ => false

/-- Single-flight invariant: the ghost count of outstanding requests is 1
exactly while the `loading` flag is set, 0 otherwise. -/
def flightInv (s : CompState) : Prop :=
  s.outstanding = if s.busy then 1 else 0

/-- A mount that submits valid input, is torn down while the request is
outstanding, and then sees the request resolve and the 900ms timer fire. -/
def teardownTrace : List Event :=
  [Event.submitClick ⟨"Alice", "a@b.com", "secret1"⟩, Event.unmount,
   Event.netComplete NetOutcome.success, Event.timerFire]

lemma submitClick_invalid (s : CompState) (i : SignupInput)
    (h : (validate i).isValid = false) :
    step s (Event.submitClick i) = (s, []) := by
  simp only [step]
  split_ifs <;> simp_all

lemma foldr_jsOr_eq_firstNonEmpty (l : List (Option String)) (d : String) :
    l.foldr jsOr d = firstNonEmpty l d := by
  induction l with
  | nil => rfl
  | cons x rest ih => cases x <;> simp [jsOr, firstNonEmpty, ih]

lemma jsOr_length_pos (a : Option String) (b : String) (h : 0 < jsLength b) :
    0 < jsLength (jsOr a b) := by
  cases a with
  | none => exact h
  | some s =>
      simp only [jsOr]
      split_ifs with hs
      · exact h
      · cases s with
        | mk l =>
            cases l with
            | nil => exact absurd rfl hs
            | cons c cs => simp [jsLength]

lemma step_flightInv (s : CompState) (e : Event) (h : flightInv s) :
    flightInv (step s e).1 := by
  cases e with
  | submitClick i =>
      simp only [step]
      split_ifs <;> simp_all [flightInv]
  | netComplete o =>
      simp only [step]
      split_ifs with h0
      · exact h
      · cases o with
        | success =>
            simp only [flightInv] at h ⊢
            rcases Bool.eq_false_or_eq_true s.busy with hb | hb <;>
              simp [hb] at h ⊢ <;> omega
        | failure e =>
            simp only [flightInv] at h ⊢
            rcases Bool.eq_false_or_eq_true s.busy with hb | hb <;>
              simp [hb] at h ⊢ <;> omega
  | timerFire =>
      simp only [step]
      split_ifs <;> simp_all [flightInv]
  | unmount => simp_all [step, flightInv]

lemma runState_flightInv (evs : List Event) :
    ∀ s : CompState, flightInv s → flightInv (runState s evs) := by
  induction evs with
  | nil => intro s h; exact h
  | cons e rest ih => intro s h; exact ih _ (step_flightInv s e h)

lemma finalBusy_append_setBusy (xs : List Effect) (b b' : Bool) :
    finalBusy (xs ++ [Effect.setBusy b']) b = b' := by
  induction xs generalizing b with
  | nil => rfl
  | cons x xs ih => cases x <;> simp [finalBusy, ih]

/-- C1: validation of a `SignupInput` succeeds exactly when the name has
length ≥ 2, the email matches the email grammar, and the password has length
≥ 6; each field is absent from the error mapping exactly when its rule holds,
and each violated rule yields precisely its fixed message. -/
theorem c1_validation_rules (i : SignupInput) :
    ((validate i).isValid = true ↔
      2 ≤ jsLength i.name ∧ isEmail i.email = true ∧ 6 ≤ jsLength i.password) ∧
    ((validate i).name = none ↔ 2 ≤ jsLength i.name) ∧
    ((validate i).email = none ↔ isEmail i.email = true) ∧
    ((validate i).password = none ↔ 6 ≤ jsLength i.password) ∧
    (¬ 2 ≤ jsLength i.name →
      (validate i).name = some "Name must be at least 2 characters") ∧
    (isEmail i.email = false →
      (validate i).email = some "Enter a valid email address") ∧
    (¬ 6 ≤ jsLength i.password →
      (validate i).password = some "Password must be at least 6 characters") := by
  constructor
  · simp [validate, FieldErrors.isValid, and_assoc]
  · refine ⟨?_, ?_, ?_, ?_, ?_, ?_⟩ <;> simp [validate]

/-- Witness for C1 at the concrete input `⟨"A", "nodomain", "12345"⟩`, which
violates all three rules. -/
theorem c1_validation_rules_witness :
    (validate ⟨"A", "nodomain", "12345"⟩).name =
      some "Name must be at least 2 characters" ∧
    (validate ⟨"A", "nodomain", "12345"⟩).email =
      some "Enter a valid email address" ∧
    (validate ⟨"A", "nodomain", "12345"⟩).password =
      some "Password must be at least 6 characters" :=
  ⟨(c1_validation_rules ⟨"A", "nodomain", "12345"⟩).2.2.2.2.1 (by decide),
   (c1_validation_rules ⟨"A", "nodomain", "12345"⟩).2.2.2.2.2.1 (by decide),
   (c1_validation_rules ⟨"A", "nodomain", "12345"⟩).2.2.2.2.2.2 (by decide)⟩

/-- C2: for every valid input, the payload posted by `onSubmit` is the input
with the name trimmed, the email trimmed and lowercased, and the password
unchanged; in particular `⟨" Al ", " A@B.COM ", "secret1"⟩` is valid and is
sent as `⟨"Al", "a@b.com", "secret1"⟩`. -/
theorem c2_payload_normalization :
    (∀ (d : SignupInput) (o : NetOutcome), (validate d).isValid = true →
      Effect.netCall (mkPayload d) ∈ onSubmit d o ∧
      mkPayload d = ⟨jsTrim d.name, lowerString (jsTrim d.email), d.password⟩) ∧
    mkPayload ⟨" Al ", " A@B.COM ", "secret1"⟩ = ⟨"Al", "a@b.com", "secret1"⟩ ∧
    (validate ⟨" Al ", " A@B.COM ", "secret1"⟩).isValid = true := by
  refine ⟨fun d o _ => ⟨?_, rfl⟩, by decide, by decide⟩
  cases o <;> simp [onSubmit, tryCatchEffects]

/-- Witness for C2: the network-call effect for the concrete valid input. -/
theorem c2_payload_normalization_witness :
    Effect.netCall (mkPayload ⟨" Al ", " A@B.COM ", "secret1"⟩) ∈
      onSubmit ⟨" Al ", " A@B.COM ", "secret1"⟩ NetOutcome.success :=
  (c2_payload_normalization.1 ⟨" Al ", " A@B.COM ", "secret1"⟩
    NetOutcome.success (by decide)).1

/-- C3: the displayed failure text is the first non-empty candidate among the
body `message` field, the body `error` field and the error's own message, in
that order, else the static default; the three concrete scenarios of the
claim evaluate as stated. -/
theorem c3_error_fallback_chain :
    (∀ e : ApiError,
      errorMessage e =
        firstNonEmpty [e.dataMessage, e.dataError, e.message] "Signup failed.") ∧
    errorMessage ⟨some ⟨some ⟨some "Email taken", none⟩⟩, none⟩ = "Email taken" ∧
    errorMessage ⟨some ⟨some ⟨none, some "x"⟩⟩, none⟩ = "x" ∧
    errorMessage ⟨some ⟨some ⟨none, none⟩⟩, none⟩ = "Signup failed." := by
  refine ⟨fun e => ?_, by decide, by decide, by decide⟩
  have h := foldr_jsOr_eq_firstNonEmpty [e.dataMessage, e.dataError, e.message]
    "Signup failed."
  simpa [errorMessage, List.foldr] using h

/-- C4: whatever the outcome of the awaited call, the effect sequence of
`onSubmit` leaves the busy flag false — the `finally` cleanup runs on every
exit path. -/
theorem c4_busy_cleared_on_every_path (d : SignupInput) (o : NetOutcome)
    (b : Bool) :
    finalBusy (onSubmit d o) b = false := by
  show finalBusy (tryCatchEffects d o ++ [Effect.setBusy false]) true = false
  exact finalBusy_append_setBusy _ _ _

/-- C5: a submit click on a busy component is a complete no-op (the button is
disabled while loading), and along every event trace from a fresh mount at
most one signup request is outstanding at any time. -/
theorem c5_single_flight :
    (∀ (m : Bool) (n : Nat) (p : Bool) (i : SignupInput),
      step ⟨m, true, n, p⟩ (Event.submitClick i) = (⟨m, true, n, p⟩, [])) ∧
    (∀ evs : List Event, (runState initState evs).outstanding ≤ 1) := by
  constructor
  · intro m n p i
    cases m <;> simp [step]
  · intro evs
    have h := runState_flightInv evs initState rfl
    unfold flightInv at h
    split at h <;> omega

/-- C6: a submit click with invalid field values changes nothing and emits no
action at all — in particular no network request — and from any state a
request action can only be emitted for input that validates. -/
theorem c6_invalid_submit_no_network :
    (∀ (s : CompState) (i : SignupInput), (validate i).isValid = false →
      step s (Event.submitClick i) = (s, [])) ∧
    (∀ (s : CompState) (i : SignupInput) (p : Payload),
      Action.request p ∈ (step s (Event.submitClick i)).2 →
        (validate i).isValid = true) := by
  refine ⟨fun s i h => submitClick_invalid s i h, fun s i p hp => ?_⟩
  rcases Bool.eq_false_or_eq_true (validate i).isValid with hv | hv
  · exact hv
  · rw [submitClick_invalid s i hv] at hp
    exact absurd hp (List.not_mem_nil _)

/-- Witness for C6 at the concrete invalid input `⟨"A", "a@b.com",
"secret1"⟩` (name too short). -/
theorem c6_invalid_submit_no_network_witness :
    step initState (Event.submitClick ⟨"A", "a@b.com", "secret1"⟩) =
      (initState, []) :=
  c6_invalid_submit_no_network.1 initState ⟨"A", "a@b.com", "secret1"⟩ (by decide)

/-- C7: a successful submission emits exactly one success toast and schedules
exactly one navigation, to "/dashboard" with a 900ms delay, and the
scheduling effect comes strictly after the network call; a failed submission
schedules no navigation and emits no success toast. -/
theorem c7_success_notification_and_delayed_nav (d : SignupInput) :
    (onSubmit d NetOutcome.success).countP isSuccessToast = 1 ∧
    (onSubmit d NetOutcome.success).countP isNavSchedule = 1 ∧
    (∃ i j : Nat, i < j ∧
      (onSubmit d NetOutcome.success)[i]? = some (Effect.netCall (mkPayload d)) ∧
      (onSubmit d NetOutcome.success)[j]? =
        some (Effect.scheduleNav "/dashboard" 900)) ∧
    (∀ e, (onSubmit d (NetOutcome.failure e)).countP isNavSchedule = 0) ∧
    (∀ e, (onSubmit d (NetOutcome.failure e)).countP isSuccessToast = 0) :=
  ⟨rfl, rfl, ⟨1, 3, by omega, rfl, rfl⟩, fun e => rfl, fun e => rfl⟩

/-- C8: the source has no teardown guard, so on the concrete trace that
unmounts the component while a request is outstanding, the promise
continuation still writes the component's state and the 900ms timer still
navigates, both while unmounted — the pending continuations are not no-ops. -/
theorem c8_continuations_run_after_teardown :
    (false, Action.navigate "/dashboard") ∈ runLog initState teardownTrace ∧
    (false, Action.stateWrite false) ∈ runLog initState teardownTrace ∧
    (runState initState teardownTrace).mounted = false := by decide

/-- C9: validation sees the raw fields, normalization happens afterwards: the
input with name `" A "` passes validation, yet the payload actually sent
carries name `"A"` of length 1, which violates the validated length rule. -/
theorem c9_validation_precedes_normalization :
    (validate ⟨" A ", "a@b.com", "secret1"⟩).isValid = true ∧
    (mkPayload ⟨" A ", "a@b.com", "secret1"⟩).name = "A" ∧
    jsLength (mkPayload ⟨" A ", "a@b.com", "secret1"⟩).name < 2 ∧
    (validate ⟨(mkPayload ⟨" A ", "a@b.com", "secret1"⟩).name,
      "a@b.com", "secret1"⟩).isValid = false := by
  decide

/-- C10: a present-but-empty `message` field is skipped by the fallback chain
— the remaining candidates decide the text — and the displayed message is
never the empty string; with body `message = ""` and `error = "x"` the text
is `"x"`. -/
theorem c10_empty_message_skipped :
    (∀ (eo m : Option String),
      errorMessage ⟨some ⟨some ⟨some "", eo⟩⟩, m⟩ =
        firstNonEmpty [eo, m] "Signup failed.") ∧
    (∀ e : ApiError, 0 < jsLength (errorMessage e)) ∧
    errorMessage ⟨some ⟨some ⟨some "", some "x"⟩⟩, none⟩ = "x" := by
  refine ⟨fun eo m => ?_, fun e => ?_, by decide⟩
  · have h := foldr_jsOr_eq_firstNonEmpty [eo, m] "Signup failed."
    simpa [errorMessage, ApiError.dataMessage, ApiError.dataError, jsOr,
      List.foldr] using h
  · exact jsOr_length_pos _ _ (jsOr_length_pos _ _ (jsOr_length_pos _ _ (by decide)))

end SignupPage
